import Mathlib

/-!
# Verification of the caprev sensor link layer

Shallow embedding of the message codec (`src/Protocol.cpp`), the per-sensor
connection state machine (`src/TCPClient.cpp`), the sensor history buffer
(`src/Sensor.cpp`) and the session registry (`src/MainFrame.cpp`), together
with proofs and refutations of the specification's claims about them.

Modelling conventions:
* Byte buffers are `List Nat`, each element a byte value; a C++
  `static_cast<uint8_t>` is `% 256`.
* The C++ `UnityMessage` struct carries a 32-bit `float value`. The codec
  touches only its raw bit pattern (`memcpy` in both directions), so at the
  codec layer the value is modelled as its four memory bytes (`Float32`).
  The client layer only compares the value (`> 0`, `= -1.0f`, `= 1000.0f`)
  and every float constant appearing there (−1.0, 5.0, 1000.0) is exactly
  representable in binary32, so at that layer the value is modelled as an
  exact rational. The struct is therefore parameterised by the value type.
* C++ `throw ProtocolError(...)` is `Except.error` with one constructor per
  throw site of `Protocol::deserialize`.
-/

deriving instance DecidableEq for Except

namespace Caprev

/-- The four bytes of a 32-bit float as laid out in memory; `serialize` and
`deserialize` copy this bit pattern verbatim (`memcpy`), never interpreting
it numerically. -/
structure Float32 where
  b0 : Nat
  b1 : Nat
  b2 : Nat
  b3 : Nat
deriving DecidableEq, Repr

/-- `UnityMessage` from `include/Protocol.h`, parameterised by the model of
the `float value` field (`Float32` at the codec layer, `ℚ` at the client
layer). `type` is the raw ordinal of `UnityMessage::Type` (a C++ `enum
class` value, which `deserialize` produces from an arbitrary byte without
validation). -/
structure UnityMessage (α : Type) where
  type : Nat
  pin : List Nat
  value : α
  error : List Nat
deriving DecidableEq, Repr

/-- `UnityMessage::Type` ordinals (include/Protocol.h). -/
def CONNECT : Nat := 0

def PIN_REQUEST : Nat := 1

def PIN_RESPONSE : Nat := 2

def SENSOR_DATA : Nat := 3

def ERROR_STATE : Nat := 4

def PROTOCOL_VERSION : Nat := 1

def MAX_MESSAGE_SIZE : Nat := 1024

/-- The distinct throw sites of `Protocol::deserialize` (Protocol.cpp
lines 36, 43, 51, 56). The spec's taxonomy names the first, third and
fourth `Truncated` and the second `VersionMismatch`. -/
inductive ProtocolError where
  | messageTooShort
  | versionMismatch
  | invalidPinLength
  | truncatedAtValue
deriving DecidableEq, Repr

/-- `ProtocolError`s the spec classifies as `Truncated`. -/
def ProtocolError.isTruncation : ProtocolError → Bool
  | .messageTooShort => true
  | .versionMismatch => false
  | .invalidPinLength => true
  | .truncatedAtValue => true

/-- `Protocol::serialize` (Protocol.cpp lines 7–33): version byte, type
byte, pin-length byte (the length silently cast to `uint8_t`), pin bytes,
the four value bytes, and — only for `ERROR_STATE` — an error-length byte
(again silently cast) followed by the error bytes. No length validation is
performed. -/
def serialize (msg : UnityMessage Float32) : List Nat :=
  PROTOCOL_VERSION :: (msg.type % 256) :: (msg.pin.length % 256) ::
    (msg.pin ++
      [msg.value.b0, msg.value.b1, msg.value.b2, msg.value.b3] ++
      (if msg.type = ERROR_STATE then (msg.error.length % 256) :: msg.error else []))

/-- The optional error tail of `Protocol::deserialize` (Protocol.cpp lines
61–66): read only when the type is `ERROR_STATE` and a length byte is
present, and assigned only when the declared length fits; otherwise the
`error` field keeps its default (empty). -/
def errTail (t : Nat) : List Nat → List Nat
  | errLen :: tl =>
    if t = ERROR_STATE ∧ errLen ≤ tl.length then tl.take errLen else []
  | [] => []

/-- `Protocol::deserialize` (Protocol.cpp lines 35–69). Fails if fewer than
3 bytes, on a version mismatch, if the declared pin length overruns the
buffer, or if the 4 value bytes overrun the buffer. The error tail is
optional (see `errTail`). Trailing bytes are ignored. -/
def deserialize (data : List Nat) : Except ProtocolError (UnityMessage Float32) :=
  match data with
  | v :: t :: pinLen :: rest =>
    if v ≠ PROTOCOL_VERSION then .error .versionMismatch
    else if pinLen > rest.length then .error .invalidPinLength
    else
      let pin := rest.take pinLen
      match rest.drop pinLen with
      | b0 :: b1 :: b2 :: b3 :: rest3 =>
        .ok ⟨t, pin, ⟨b0, b1, b2, b3⟩, errTail t rest3⟩
      | _ => .error .truncatedAtValue
  | _ => .error .messageTooShort

/-- Evaluation lemma: buffers of fewer than 3 bytes fail the initial size
check. -/
lemma deserialize_short (data : List Nat) (h : data.length < 3) :
    deserialize data = .error .messageTooShort := by
  match data with
  | [] => rfl
  | [_] => rfl
  | [_, _] => rfl
  | _ :: _ :: _ :: _ => simp at h; omega

/-- Evaluation lemma: a declared pin length overrunning the buffer fails
the pin bound check. -/
lemma deserialize_pin_overrun (t pinLen : Nat) (rest : List Nat)
    (h : rest.length < pinLen) :
    deserialize (PROTOCOL_VERSION :: t :: pinLen :: rest) =
      .error .invalidPinLength := by
  simp [deserialize, h]

/-- Evaluation lemma: a buffer ending inside the 4 float bytes fails the
value bound check. -/
lemma deserialize_value_overrun (t pinLen : Nat) (rest : List Nat)
    (hp : pinLen ≤ rest.length) (h : rest.length < pinLen + 4) :
    deserialize (PROTOCOL_VERSION :: t :: pinLen :: rest) =
      .error .truncatedAtValue := by
  have hd : (rest.drop pinLen).length < 4 := by
    simp [List.length_drop]; omega
  simp only [deserialize]
  rw [if_neg (by simp), if_neg (by omega)]
  match hm : rest.drop pinLen with
  | [] => simp [hm]
  | [_] => simp [hm]
  | [_, _] => simp [hm]
  | [_, _, _] => simp [hm]
  | _ :: _ :: _ :: _ :: _ => rw [hm] at hd; simp at hd; omega

/-- Evaluation lemma: when the version matches and both bound checks pass,
`deserialize` succeeds, carrying the type byte unvalidated and reading the
optional error tail. -/
lemma deserialize_ok (t pinLen : Nat) (rest : List Nat)
    (b0 b1 b2 b3 : Nat) (rest3 : List Nat)
    (hp : pinLen ≤ rest.length)
    (hd : rest.drop pinLen = b0 :: b1 :: b2 :: b3 :: rest3) :
    deserialize (PROTOCOL_VERSION :: t :: pinLen :: rest) =
      .ok ⟨t, rest.take pinLen, ⟨b0, b1, b2, b3⟩, errTail t rest3⟩ := by
  simp only [deserialize]
  rw [if_neg (by simp), if_neg (by omega), hd]

/-- C1. Round-trip: for every message of one of the five variants whose pin
is at most 255 bytes, whose error is at most 255 bytes when the variant is
`ErrorState`, and whose error is empty otherwise (non-`ErrorState` variants
carry no error field), deserializing the result of serializing it yields
the same message: same type, pin, value bytes and error. -/
theorem c1_round_trip (m : UnityMessage Float32) (htype : m.type < 5)
    (hpin : m.pin.length ≤ 255)
    (herr : m.type = ERROR_STATE → m.error.length ≤ 255)
    (herrEmpty : m.type ≠ ERROR_STATE → m.error = []) :
    deserialize (serialize m) = .ok m := by
  obtain ⟨t, pin, ⟨b0, b1, b2, b3⟩, err⟩ := m
  simp only at htype hpin herr herrEmpty
  have hpl : pin.length % 256 = pin.length := Nat.mod_eq_of_lt (by omega)
  have ht256 : t % 256 = t := Nat.mod_eq_of_lt (by omega)
  by_cases ht : t = ERROR_STATE
  · have hel : err.length % 256 = err.length :=
      Nat.mod_eq_of_lt (by have := herr ht; omega)
    subst ht
    simp [serialize, deserialize, errTail, hpl, hel, PROTOCOL_VERSION, ERROR_STATE,
      List.take_left, List.drop_left]
  · have he : err = [] := herrEmpty ht
    subst he
    simp [serialize, deserialize, errTail, ht, hpl, ht256, PROTOCOL_VERSION,
      List.take_left, List.drop_left]

/-- Witness for C1 at a concrete `ErrorState` message. -/
theorem c1_round_trip_witness :
    deserialize (serialize ⟨ERROR_STATE, [55, 56], ⟨0, 0, 160, 64⟩, [111]⟩) =
      .ok ⟨ERROR_STATE, [55, 56], ⟨0, 0, 160, 64⟩, [111]⟩ :=
  c1_round_trip ⟨ERROR_STATE, [55, 56], ⟨0, 0, 160, 64⟩, [111]⟩ (by decide)
    (by decide) (fun _ => by decide) (fun h => absurd rfl h)

/-- A `PinRequest` whose pin is 300 bytes long — the spec's oversized-field
example. -/
def oversizedPinMsg : UnityMessage Float32 :=
  ⟨PIN_REQUEST, List.replicate 300 97, ⟨0, 0, 0, 0⟩, []⟩

set_option maxRecDepth 4000 in
/-- C2 evidence. `Protocol::serialize` performs no length validation: on a
300-byte pin it produces a 307-byte buffer (version, type, length byte,
300 pin bytes, 4 value bytes) instead of failing, its pin-length byte is
the silently truncated `300 % 256 = 44`, and the resulting frame misparses:
decoding it yields a message whose pin is only the first 44 bytes, followed
by pin bytes misread as the float payload. -/
theorem c2_no_length_validation :
    (serialize oversizedPinMsg).length = 307 ∧
    (serialize oversizedPinMsg).getD 2 0 = 44 ∧
    deserialize (serialize oversizedPinMsg) =
      .ok ⟨PIN_REQUEST, List.replicate 44 97, ⟨97, 97, 97, 97⟩, []⟩ := by
  decide

/-- A valid `ErrorState` message with a one-byte error text, used to refute
C3. -/
def errStateMsg : UnityMessage Float32 :=
  ⟨ERROR_STATE, [], ⟨0, 0, 160, 64⟩, [97]⟩

/-- C3 counterexample. `serialize errStateMsg` is 9 bytes long, so its
7-byte prefix is a strict prefix of a valid encoded message; deserializing
that prefix does not fail — it returns a message (with the error field
empty), because `deserialize` treats the `ErrorState` tail as optional. -/
theorem c3_counterexample :
    7 < (serialize errStateMsg).length ∧
    deserialize ((serialize errStateMsg).take 7) =
      .ok ⟨ERROR_STATE, [], ⟨0, 0, 160, 64⟩, []⟩ := by
  decide

/-- C3 amended. For every valid encoded message, every strict prefix
shorter than the mandatory footprint (3 header bytes, pin, 4 value bytes)
fails with a truncation-class error; strict prefixes at least that long
exist only for `ErrorState` messages and decode successfully to the same
message with an empty error field (the optional tail is dropped, not
detected as truncation). Decoding a prefix never reads out of bounds (the
embedding is a total function over the prefix). -/
theorem c3_amended (m : UnityMessage Float32) (htype : m.type < 5)
    (hpin : m.pin.length ≤ 255)
    (herr : m.type = ERROR_STATE → m.error.length ≤ 255)
    (herrEmpty : m.type ≠ ERROR_STATE → m.error = [])
    (k : Nat) (hk : k < (serialize m).length) :
    (k < 3 + m.pin.length + 4 →
      ∃ e, deserialize ((serialize m).take k) = .error e ∧
        e.isTruncation = true) ∧
    (3 + m.pin.length + 4 ≤ k →
      m.type = ERROR_STATE ∧
      deserialize ((serialize m).take k) = .ok ⟨m.type, m.pin, m.value, []⟩) := by
  obtain ⟨t, pin, ⟨b0, b1, b2, b3⟩, err⟩ := m
  simp only at htype hpin herr herrEmpty hk ⊢
  have ht256 : t % 256 = t := Nat.mod_eq_of_lt (by omega)
  have hpl : pin.length % 256 = pin.length := Nat.mod_eq_of_lt (by omega)
  have hser : serialize ⟨t, pin, ⟨b0, b1, b2, b3⟩, err⟩ =
      PROTOCOL_VERSION :: t :: pin.length ::
        (pin ++ ([b0, b1, b2, b3] ++
          (if t = ERROR_STATE then (err.length % 256) :: err else []))) := by
    simp [serialize, ht256, hpl]
  rw [hser] at hk ⊢
  set tail := (if t = ERROR_STATE then (err.length % 256) :: err else [])
    with htail
  set body := pin ++ ([b0, b1, b2, b3] ++ tail) with hbody
  have hbodyLen : body.length = pin.length + (4 + tail.length) := by
    simp [hbody]; omega
  simp only [List.length_cons] at hk
  rcases k with _ | _ | _ | n
  · exact ⟨fun _ => ⟨.messageTooShort, deserialize_short [] (by simp), rfl⟩,
      fun h => absurd h (by omega)⟩
  · exact ⟨fun _ => ⟨.messageTooShort, deserialize_short _ (by simp), rfl⟩,
      fun h => absurd h (by omega)⟩
  · exact ⟨fun _ => ⟨.messageTooShort, deserialize_short _ (by simp), rfl⟩,
      fun h => absurd h (by omega)⟩
  have htk : (PROTOCOL_VERSION :: t :: pin.length :: body).take (n + 3) =
      PROTOCOL_VERSION :: t :: pin.length :: body.take n := rfl
  rw [htk]
  have hkn : n < body.length := by omega
  have hlenTake : (body.take n).length = n := by
    simp [List.length_take]; omega
  by_cases h1 : n < pin.length
  · refine ⟨fun _ => ⟨.invalidPinLength, ?_, rfl⟩, fun h => absurd h (by omega)⟩
    exact deserialize_pin_overrun _ _ _ (by omega)
  · push_neg at h1
    have hbt : body.take n =
        pin ++ ([b0, b1, b2, b3] ++ tail).take (n - pin.length) := by
      rw [hbody, List.take_append_eq_append_take, List.take_of_length_le h1]
    by_cases h2 : n < pin.length + 4
    · refine ⟨fun _ => ⟨.truncatedAtValue, ?_, rfl⟩, fun h => absurd h (by omega)⟩
      exact deserialize_value_overrun _ _ _ (by omega) (by omega)
    · push_neg at h2
      -- the full mandatory footprint is present in the prefix
      obtain ⟨j, hj⟩ : ∃ j, n - pin.length = j + 4 := ⟨n - pin.length - 4, by omega⟩
      have hmid : ([b0, b1, b2, b3] ++ tail).take (n - pin.length) =
          b0 :: b1 :: b2 :: b3 :: tail.take j := by
        rw [hj]; rfl
      have hdrop : (body.take n).drop pin.length =
          b0 :: b1 :: b2 :: b3 :: tail.take j := by
        rw [hbt, List.drop_left, hmid]
      have htake : (body.take n).take pin.length = pin := by
        rw [hbt, List.take_left]
      have hok := deserialize_ok t pin.length (body.take n) b0 b1 b2 b3
        (tail.take j) (by omega) hdrop
      rw [htake] at hok
      by_cases ht4 : t = ERROR_STATE
      · -- ErrorState: the prefix decodes, with the error field left empty
        have hel : err.length % 256 = err.length :=
          Nat.mod_eq_of_lt (by have := herr ht4; omega)
        have htail4 : tail = err.length :: err := by rw [htail, if_pos ht4, hel]
        have hjlen : j ≤ err.length := by
          rw [htail4] at hbodyLen
          simp [List.length_cons] at hbodyLen
          omega
        have herrEmptyTail : errTail t (tail.take j) = [] := by
          rw [htail4]
          match j, hjlen with
          | 0, _ => rfl
          | j' + 1, hjl =>
            have : (err.length :: err).take (j' + 1) =
                err.length :: err.take j' := rfl
            rw [this]
            simp only [errTail]
            rw [if_neg]
            rintro ⟨-, hle⟩
            rw [List.length_take] at hle
            omega
        rw [herrEmptyTail] at hok
        exact ⟨fun h => absurd h (by omega), fun _ => ⟨ht4, hok⟩⟩
      · -- non-ErrorState messages have no bytes past the footprint, so no
        -- strict prefix reaches here
        have : tail = [] := by rw [htail, if_neg ht4]
        rw [this] at hbodyLen
        simp at hbodyLen
        omega

/-- Witness for C3-amended: the 8-byte strict prefix of the 9-byte encoded
`errStateMsg` lies past the mandatory footprint and decodes to the message
with an empty error field. -/
theorem c3_amended_witness :
    deserialize ((serialize errStateMsg).take 8) =
      .ok ⟨errStateMsg.type, errStateMsg.pin, errStateMsg.value, []⟩ :=
  ((c3_amended errStateMsg (by decide) (by decide) (fun _ => by decide)
    (fun h => absurd rfl h) 8 (by decide)).2 (by decide)).2

/-- C10. `Protocol::deserialize` never validates the message-type byte:
whenever the version byte matches and the pin and value bounds checks pass,
decoding succeeds and the resulting message carries the raw type byte —
including any value outside 0..4. (Failures can only be the four
`ProtocolError` constructors, one per bounds/version check; none inspects
the tag.) -/
theorem c10_no_tag_validation (t pinLen : Nat) (rest : List Nat)
    (hval : pinLen + 4 ≤ rest.length) :
    ∃ m, deserialize (PROTOCOL_VERSION :: t :: pinLen :: rest) = .ok m ∧
      m.type = t := by
  have hlen : 4 ≤ (rest.drop pinLen).length := by
    simp [List.length_drop]; omega
  match hm : rest.drop pinLen with
  | [] => rw [hm] at hlen; simp at hlen
  | [_] => rw [hm] at hlen; simp at hlen
  | [_, _] => rw [hm] at hlen; simp at hlen
  | [_, _, _] => rw [hm] at hlen; simp at hlen
  | b0 :: b1 :: b2 :: b3 :: rest3 =>
    exact ⟨_, deserialize_ok t pinLen rest b0 b1 b2 b3 rest3 (by omega) hm, rfl⟩

/-- Witness for C10 at type byte 9 (outside 0..4): decoding succeeds and
carries type 9. -/
theorem c10_no_tag_validation_witness :
    ∃ m, deserialize (PROTOCOL_VERSION :: 9 :: 0 :: [10, 20, 30, 40]) =
      .ok m ∧ m.type = 9 :=
  c10_no_tag_validation 9 0 [10, 20, 30, 40] (by decide)

/-!
## Connection state machine (`src/TCPClient.cpp`)

At this layer the float value is compared (`msg.value > 0` in
`handleIncomingData`; `value == -1.0f` / `value == 1000.0f` in
`MainFrame::onSensorUpdate`), so it is modelled as an exact rational: every
constant involved (−1.0, 5.0, 1000.0) is exactly representable in binary32
and the comparisons used are exact on them. A decoded inbound message is
`UnityMessage ℚ`.
-/

/-- The mutable state of a `TCPClient`: the wx socket's own connectivity
(`wxSocketClient::IsConnected`), `m_connected` and `m_handshakeComplete`. -/
structure ClientState where
  sockUp : Bool
  connected : Bool
  handshakeComplete : Bool
deriving DecidableEq, Repr

/-- A freshly constructed `TCPClient` (constructor, TCPClient.cpp
lines 12–25): nothing connected yet. -/
def clientInit : ClientState := ⟨false, false, false⟩

/-- What reaches a `TCPClient` on a data-available notification, after the
size-prefixed read and `Protocol::deserialize`: either a decoded message or
the `ProtocolError` it threw. -/
abbrev DecodeResult := Except ProtocolError (UnityMessage ℚ)

/-- `TCPClient::handleIncomingData` (TCPClient.cpp lines 94–150), given the
outcome of reading and deserializing one frame. Returns the new state and
the floats passed to the `m_onData` callback. A `ProtocolError` is caught
and only logged — the `disconnect()` in the catch block is commented out,
so the state is unchanged and no callback fires. `ERROR_STATE` signals
−1.0; the first `PIN_RESPONSE` before handshake completion silently sets
both flags; later `PIN_RESPONSE`s signal 1000.0 (accepted, `value > 0`) or
−1.0 (rejected); `SENSOR_DATA` forwards its value only when both flags are
set; `CONNECT` and unknown types fall through the switch. -/
def handleIncomingData (s : ClientState) (r : DecodeResult) :
    ClientState × List ℚ :=
  match r with
  | .error _ => (s, [])
  | .ok msg =>
    if msg.type = ERROR_STATE then (s, [-1])
    else if msg.type = PIN_RESPONSE then
      if ¬s.handshakeComplete then
        ({ s with connected := true, handshakeComplete := true }, [])
      else if msg.value > 0 then (s, [1000])
      else (s, [-1])
    else if msg.type = SENSOR_DATA then
      if s.connected ∧ s.handshakeComplete then (s, [msg.value]) else (s, [])
    else (s, [])

/-- The socket events `TCPClient::onSocketEvent` dispatches on. An input
event carries the decode outcome of the frame read inside
`handleIncomingData`. -/
inductive SocketEvt where
  | connection
  | input (r : DecodeResult)
  | lost

/-- `TCPClient::onSocketEvent` (TCPClient.cpp lines 152–189).
`wxSOCKET_CONNECTION`: the socket is now up and a `Connect` handshake
message is written; the flags are deliberately not set ("wait for
response"). `wxSOCKET_INPUT` (only if the socket is up): run
`handleIncomingData`, then if the handshake is still not complete mark both
flags true — regardless of what, if anything, was decoded (the
`ProtocolError` catch around `handleIncomingData` is dead code because
`handleIncomingData` catches internally). `wxSOCKET_LOST`: clear the
flags. -/
def onSocketEvent (s : ClientState) (e : SocketEvt) : ClientState × List ℚ :=
  match e with
  | .connection => ({ s with sockUp := true }, [])
  | .input r =>
    if s.sockUp then
      let p := handleIncomingData s r
      if ¬p.1.handshakeComplete then
        ({ p.1 with connected := true, handshakeComplete := true }, p.2)
      else p
    else (s, [])
  | .lost =>
    ({ s with
        sockUp := false
        connected := false
        handshakeComplete := false }, [])

/-- Result of `TCPClient::sendPinRequest` (TCPClient.cpp lines 45–57):
`notReady` is the early `return false` when the flags are not both set
(the spec's `NotReady` state error — nothing is serialized or written);
otherwise `sendMessage` runs, failing if the socket is down and writing
the `PinRequest` frame if it is up. -/
inductive SendResult where
  | notReady
  | socketDown
  | sent
deriving DecidableEq, Repr

/-- `TCPClient::sendPinRequest` followed by `TCPClient::sendMessage`
(write success abstracted as: the write goes through iff the socket is
up). -/
def sendPinRequest (s : ClientState) : SendResult :=
  if ¬(s.connected ∧ s.handshakeComplete) then .notReady
  else if ¬s.sockUp then .socketDown
  else .sent

/-- The `m_clients` registry of `MainFrame`: event delivery to one client
touches only that client's state (`MainFrame.cpp` binds each
`TCPClient` to its own socket). -/
def registryStep (cs : List ClientState) (i : Nat) (e : SocketEvt) :
    List ClientState × List ℚ :=
  match cs.get? i with
  | some c => (cs.set i (onSocketEvent c e).1, (onSocketEvent c e).2)
  | none => (cs, [])

/-- On a socket that is up and whose handshake is not yet complete, an
input event — whatever its decode outcome and message variant — leaves the
client with both flags set (either `handleIncomingData` sets them for a
first `PinResponse`, or the caller `onSocketEvent` sets them afterwards). -/
lemma onSocketEvent_input_first (s : ClientState) (r : DecodeResult)
    (hup : s.sockUp = true) (hhs : s.handshakeComplete = false) :
    (onSocketEvent s (.input r)).1 =
      { s with connected := true, handshakeComplete := true } := by
  rcases r with e | msg
  · simp [onSocketEvent, handleIncomingData, hup, hhs]
  · by_cases h4 : msg.type = ERROR_STATE
    · simp [onSocketEvent, handleIncomingData, hup, hhs, h4]
    · by_cases h2 : msg.type = PIN_RESPONSE
      · simp [onSocketEvent, handleIncomingData, hup, hhs, h4, h2,
          PIN_RESPONSE, ERROR_STATE]
      · by_cases h3 : msg.type = SENSOR_DATA
        · simp [onSocketEvent, handleIncomingData, hup, hhs, h4, h2, h3,
            SENSOR_DATA, PIN_RESPONSE, ERROR_STATE]
        · simp [onSocketEvent, handleIncomingData, hup, hhs, h4, h2, h3]

/-- A pre-handshake input event whose message is not an `ErrorState` (or
which fails to decode) fires no data callback. -/
lemma onSocketEvent_input_first_sigs (s : ClientState) (msg : UnityMessage ℚ)
    (hup : s.sockUp = true) (hhs : s.handshakeComplete = false)
    (hne : msg.type ≠ ERROR_STATE) :
    (onSocketEvent s (.input (.ok msg))).2 = [] := by
  by_cases h2 : msg.type = PIN_RESPONSE
  · simp [onSocketEvent, handleIncomingData, hup, hhs, hne, h2,
      PIN_RESPONSE, ERROR_STATE]
  · by_cases h3 : msg.type = SENSOR_DATA
    · simp [onSocketEvent, handleIncomingData, hup, hhs, hne, h2, h3,
        SENSOR_DATA, PIN_RESPONSE, ERROR_STATE]
    · simp [onSocketEvent, handleIncomingData, hup, hhs, hne, h2, h3]

/-- A decode failure on an input event fires no data callback, whatever
the client state. -/
lemma onSocketEvent_input_error_sigs (s : ClientState) (e : ProtocolError) :
    (onSocketEvent s (.input (.error e))).2 = [] := by
  by_cases hup : s.sockUp <;>
    by_cases hhs : s.handshakeComplete <;>
      simp [onSocketEvent, handleIncomingData, hup, hhs]

/-- C4. After the transport-connected event the flags are still clear, so
`sendPinRequest` fails with `NotReady` (the early `return false`, before
anything is serialized or written) — as it does on a fresh client; the
first inbound message, regardless of its decode outcome or variant, sets
the handshake-complete flag, after which `sendPinRequest` passes the gate
and writes the request; and no event other than an input event can set the
handshake-complete flag. -/
theorem c4_handshake_gates_pin_request (r : DecodeResult) (s : ClientState)
    (e : SocketEvt) (hs : s.handshakeComplete = false)
    (he : ∀ r', e ≠ .input r') :
    sendPinRequest clientInit = .notReady ∧
    sendPinRequest (onSocketEvent clientInit .connection).1 = .notReady ∧
    ((onSocketEvent (onSocketEvent clientInit .connection).1
        (.input r)).1.handshakeComplete = true ∧
      (onSocketEvent (onSocketEvent clientInit .connection).1
        (.input r)).1.connected = true ∧
      sendPinRequest (onSocketEvent (onSocketEvent clientInit .connection).1
        (.input r)).1 = .sent) ∧
    (onSocketEvent s e).1.handshakeComplete = false := by
  refine ⟨rfl, rfl, ?_, ?_⟩
  · have h1 : (onSocketEvent clientInit .connection).1 =
        ⟨true, false, false⟩ := rfl
    rw [h1, onSocketEvent_input_first ⟨true, false, false⟩ r rfl rfl]
    exact ⟨rfl, rfl, rfl⟩
  · cases e with
    | connection => simpa [onSocketEvent] using hs
    | input r' => exact absurd rfl (he r')
    | lost => simp [onSocketEvent]

/-- Witness for C4: after a lost event on a client whose handshake was
incomplete, the handshake-complete flag is still clear. -/
theorem c4_handshake_gates_pin_request_witness :
    (onSocketEvent ⟨true, false, false⟩ .lost).1.handshakeComplete = false :=
  (c4_handshake_gates_pin_request (.error .messageTooShort)
    ⟨true, false, false⟩ .lost rfl
    (fun _ h => SocketEvt.noConfusion h)).2.2.2

/-- C9. The first data-available event on a connected socket sets both
flags even when the received bytes fail to deserialize: the
`ProtocolError` is caught inside `handleIncomingData` (which changes
nothing and fires no callback), and `onSocketEvent` then unconditionally
marks the connection established — so a parse failure before the handshake
still enables `sendPinRequest` to proceed. -/
theorem c9_parse_failure_completes_handshake (e : ProtocolError) :
    (onSocketEvent (onSocketEvent clientInit .connection).1
      (.input (.error e))).1.connected = true ∧
    (onSocketEvent (onSocketEvent clientInit .connection).1
      (.input (.error e))).1.handshakeComplete = true ∧
    (onSocketEvent (onSocketEvent clientInit .connection).1
      (.input (.error e))).2 = [] ∧
    sendPinRequest (onSocketEvent (onSocketEvent clientInit .connection).1
      (.input (.error e))).1 = .sent := by
  have h1 : (onSocketEvent clientInit .connection).1 = ⟨true, false, false⟩ := rfl
  rw [h1, onSocketEvent_input_first ⟨true, false, false⟩ (.error e) rfl rfl]
  exact ⟨rfl, rfl, onSocketEvent_input_error_sigs _ e, rfl⟩

/-- C6 counterexample. A deserialization error on an established, streaming
connection (all flags set) is caught and swallowed: the state is completely
unchanged — in particular the socket stays up, so there is no `Closed`
transition — and no callback fires, so no error signal reaches the owner.
The claim's "translated into a Closed transition plus an error signal" is
false. -/
theorem c6_counterexample :
    onSocketEvent ⟨true, true, true⟩ (.input (.error .messageTooShort)) =
      (⟨true, true, true⟩, []) ∧
    (onSocketEvent ⟨true, true, true⟩
      (.input (.error .messageTooShort))).1.sockUp = true := by
  exact ⟨rfl, rfl⟩

/-- C6 amended. A deserialization error raised while handling inbound data
is caught at the connection boundary and affects no other connection in
the registry, but it is swallowed rather than translated: no error signal
is emitted, the socket stays in its prior state (no `Closed` transition),
and on an established connection the state is entirely unchanged — the
only state change a pre-handshake error can cause is that the input event
still marks the handshake complete. -/
theorem c6_codec_error_swallowed (e : ProtocolError) (s : ClientState)
    (cs : List ClientState) (i j : Nat) (hij : j ≠ i) :
    (onSocketEvent s (.input (.error e))).2 = [] ∧
    (onSocketEvent s (.input (.error e))).1.sockUp = s.sockUp ∧
    (s.handshakeComplete = true → onSocketEvent s (.input (.error e)) = (s, [])) ∧
    (registryStep cs i (.input (.error e))).1[j]? = cs[j]? := by
  refine ⟨onSocketEvent_input_error_sigs s e, ?_, ?_, ?_⟩
  · by_cases hup : s.sockUp <;> by_cases hhs : s.handshakeComplete <;>
      simp [onSocketEvent, handleIncomingData, hup, hhs]
  · intro hhs
    by_cases hup : s.sockUp <;>
      simp [onSocketEvent, handleIncomingData, hup, hhs]
  · unfold registryStep
    cases hc : cs.get? i with
    | none => rfl
    | some c => exact List.getElem?_set_ne (fun h => hij h.symm)

/-- Witness for C6-amended: a concrete two-client registry in which client
0 receives undecodable bytes; client 1's entry is untouched. -/
theorem c6_codec_error_swallowed_witness :
    (registryStep [⟨true, true, true⟩, ⟨true, false, false⟩] 0
      (.input (.error .messageTooShort))).1[1]? =
      ([⟨true, true, true⟩, ⟨true, false, false⟩] :
        List ClientState)[1]? :=
  (c6_codec_error_swallowed .messageTooShort ⟨true, true, true⟩
    [⟨true, true, true⟩, ⟨true, false, false⟩] 0 1 one_ne_zero).2.2.2

/-!
## Sensor (`src/Sensor.cpp`) and session registry (`src/MainFrame.cpp`)
-/

/-- `Sensor::MAX_HISTORY` (include/Sensor.h line 34). -/
def MAX_HISTORY : Nat := 100

/-- A `Sensor` (include/Sensor.h): pin, connected flag, last value and the
bounded history deque. -/
structure Sensor where
  pin : List Nat
  connected : Bool
  lastValue : ℚ
  history : List ℚ
deriving DecidableEq, Repr

/-- The `Sensor::Sensor(pin)` constructor: not connected, last value 0,
empty history. -/
def sensorInit (pin : List Nat) : Sensor := ⟨pin, false, 0, []⟩

/-- `Sensor::updateValue` (Sensor.cpp lines 29–35): store the value; if the
history is already at `MAX_HISTORY`, pop the oldest entry; append the new
one. -/
def Sensor.updateValue (s : Sensor) (v : ℚ) : Sensor :=
  { s with
      lastValue := v
      history :=
        (if MAX_HISTORY ≤ s.history.length then s.history.tail else s.history)
          ++ [v] }

/-- How `MainFrame::onSensorUpdate` (MainFrame.cpp lines 201–227)
classifies a value arriving on the data callback: `-1.0` is the rejected /
error outcome (the "Invalid PIN" box), `1000.0` is the authorized outcome
(sensor created and marked connected), anything else is a sample forwarded
to `onSensorData`. -/
inductive Outcome where
  | rejected
  | authorized
  | sample (v : ℚ)
deriving DecidableEq, Repr

/-- The three-way dispatch of `MainFrame::onSensorUpdate` on the callback
value. -/
def classifySignal (v : ℚ) : Outcome :=
  if v = -1 then .rejected
  else if v = 1000 then .authorized
  else .sample v

/-- The `MainFrame` state the claims touch: the pin-keyed sensor list and
the client list. -/
structure FrameState where
  sensors : List Sensor
  clients : List ClientState
deriving DecidableEq, Repr

/-- The `find_if`-then-update of `MainFrame::onSensorData`: update the
first sensor with a matching pin, if any. -/
def updateFirst : List Sensor → List Nat → ℚ → List Sensor
  | [], _, _ => []
  | s :: rest, pin, v =>
    if s.pin = pin then s.updateValue v :: rest else s :: updateFirst rest pin v

/-- `MainFrame::onSensorData` (MainFrame.cpp lines 229–246): a real sample
updates the matching sensor's value and history; with no matching sensor it
is dropped. (Graph recording and label refresh are out-of-scope UI.) -/
def onSensorData (fs : FrameState) (v : ℚ) (pin : List Nat) : FrameState :=
  { fs with sensors := updateFirst fs.sensors pin v }

/-- `MainFrame::onSensorUpdate` (MainFrame.cpp lines 201–227): dispatch on
the value; the rejected outcome only shows a message box; the authorized
outcome creates and connects a sensor for the pin unless one exists; a
sample goes to `onSensorData`. -/
def onSensorUpdate (fs : FrameState) (pin : List Nat) (v : ℚ) : FrameState :=
  match classifySignal v with
  | .rejected => fs
  | .authorized =>
    if fs.sensors.any (fun s => s.pin = pin) then fs
    else { fs with sensors := fs.sensors ++ [{ sensorInit pin with connected := true }] }
  | .sample w => onSensorData fs w pin

/-- The outcomes of `MainFrame::onConnect` (MainFrame.cpp lines 150–199):
empty pin, duplicate pin ("Sensor already connected"), transport
connect/wait failure, pin-request send failure, or success (client stored).
The transport outcomes are parameters of the embedding. -/
inductive ConnectOutcome where
  | emptyPin
  | alreadyExists
  | connectFailed
  | pinSendFailed
  | started
deriving DecidableEq, Repr

/-- `MainFrame::onConnect` (MainFrame.cpp lines 150–199). The duplicate
check runs before any client is created; on success the fully connected
client is appended to `m_clients`. -/
def onConnect (fs : FrameState) (pin : List Nat) (connectOk pinSendOk : Bool) :
    FrameState × ConnectOutcome :=
  if pin = [] then (fs, .emptyPin)
  else if fs.sensors.any (fun s => s.pin = pin) then (fs, .alreadyExists)
  else if ¬connectOk then (fs, .connectFailed)
  else if ¬pinSendOk then (fs, .pinSendFailed)
  else ({ fs with clients := fs.clients ++ [⟨true, true, true⟩] }, .started)

/-- `MainFrame::checkServerConnection` (MainFrame.cpp lines 248–253):
erase every client whose `isConnected()` (its `m_connected` flag) is
false. -/
def checkServerConnection (fs : FrameState) : FrameState :=
  { fs with clients := fs.clients.filter (fun c => c.connected) }

/-- `MainFrame::isServerConnected` (MainFrame.cpp lines 255–258). -/
def isServerConnected (fs : FrameState) : Bool :=
  fs.clients.any (fun c => c.connected)

/-- A `PinResponse` message with the given value, as decoded at the client
layer. -/
def pinResponse (v : ℚ) : UnityMessage ℚ := ⟨PIN_RESPONSE, [], v, []⟩

/-- C5 counterexample. The spec's scenario quantifies the
handshake-completing message over any variant. Taking it to be an
`ErrorState` message, the rejected run — transport connected, `ErrorState`
received (completing the handshake), pin request sent, then
`PinResponse{value = −1.0}` — signals TWO rejected outcomes, not exactly
one: the `ErrorState` handler fires the −1.0 callback even before the
handshake, and the rejected `PinResponse` fires a second. -/
theorem c5_counterexample :
    sendPinRequest (onSocketEvent (onSocketEvent clientInit .connection).1
      (.input (.ok ⟨ERROR_STATE, [], 0, []⟩))).1 = .sent ∧
    ((onSocketEvent (onSocketEvent clientInit .connection).1
        (.input (.ok ⟨ERROR_STATE, [], 0, []⟩))).2 ++
      (onSocketEvent (onSocketEvent (onSocketEvent clientInit .connection).1
          (.input (.ok ⟨ERROR_STATE, [], 0, []⟩))).1
        (.input (.ok (pinResponse (-1))))).2).map classifySignal =
      [.rejected, .rejected] := by
  exact ⟨by decide, by decide⟩

/-- C5 amended. Provided the handshake-completing first message is not an
`ErrorState` (an `ErrorState` would signal one extra rejected outcome), a
connection that is transport-connected, completes the handshake on that
first message, sends a pin request (which is allowed), and then receives
`PinResponse{value = 5.0}` signals exactly one authorized outcome and
streams (both flags set, and a subsequent `SensorData{v}` forwards exactly
the sample `v`); receiving `PinResponse{value = −1.0}` instead signals
exactly one rejected outcome and no sample outcome. At the owner, folding
the accepted run's callbacks through `MainFrame::onSensorUpdate` creates
exactly one connected sensor for the pin, and the rejected run creates
none. -/
theorem c5_authorization_outcomes (m1 : UnityMessage ℚ) (p : List Nat)
    (hm1 : m1.type ≠ ERROR_STATE) :
    sendPinRequest (onSocketEvent (onSocketEvent clientInit .connection).1
      (.input (.ok m1))).1 = .sent ∧
    ((onSocketEvent (onSocketEvent clientInit .connection).1
        (.input (.ok m1))).2 ++
      (onSocketEvent (onSocketEvent (onSocketEvent clientInit .connection).1
          (.input (.ok m1))).1 (.input (.ok (pinResponse 5)))).2).map
        classifySignal = [.authorized] ∧
    (onSocketEvent (onSocketEvent (onSocketEvent clientInit .connection).1
        (.input (.ok m1))).1 (.input (.ok (pinResponse 5)))).1.connected =
      true ∧
    (onSocketEvent (onSocketEvent (onSocketEvent clientInit .connection).1
        (.input (.ok m1))).1
      (.input (.ok (pinResponse 5)))).1.handshakeComplete = true ∧
    (∀ v : ℚ,
      (onSocketEvent (onSocketEvent (onSocketEvent (onSocketEvent clientInit
              .connection).1 (.input (.ok m1))).1
          (.input (.ok (pinResponse 5)))).1
        (.input (.ok ⟨SENSOR_DATA, [], v, []⟩))).2 = [v]) ∧
    ((onSocketEvent (onSocketEvent clientInit .connection).1
        (.input (.ok m1))).2 ++
      (onSocketEvent (onSocketEvent (onSocketEvent clientInit .connection).1
          (.input (.ok m1))).1 (.input (.ok (pinResponse (-1))))).2).map
        classifySignal = [.rejected] ∧
    (∀ v : ℚ, Outcome.sample v ∉
      ((onSocketEvent (onSocketEvent clientInit .connection).1
          (.input (.ok m1))).2 ++
        (onSocketEvent (onSocketEvent (onSocketEvent clientInit
            .connection).1 (.input (.ok m1))).1
          (.input (.ok (pinResponse (-1))))).2).map classifySignal) ∧
    ((onSocketEvent (onSocketEvent clientInit .connection).1
        (.input (.ok m1))).2 ++
      (onSocketEvent (onSocketEvent (onSocketEvent clientInit .connection).1
          (.input (.ok m1))).1 (.input (.ok (pinResponse 5)))).2).foldl
        (fun fs v => onSensorUpdate fs p v) ⟨[], []⟩ =
      ⟨[⟨p, true, 0, []⟩], []⟩ ∧
    ((onSocketEvent (onSocketEvent clientInit .connection).1
        (.input (.ok m1))).2 ++
      (onSocketEvent (onSocketEvent (onSocketEvent clientInit .connection).1
          (.input (.ok m1))).1 (.input (.ok (pinResponse (-1))))).2).foldl
        (fun fs v => onSensorUpdate fs p v) ⟨[], []⟩ = ⟨[], []⟩ := by
  have hs1 : (onSocketEvent clientInit .connection).1 = ⟨true, false, false⟩ :=
    rfl
  have h21 : (onSocketEvent (onSocketEvent clientInit .connection).1
      (.input (.ok m1))).1 = ⟨true, true, true⟩ := by
    rw [hs1, onSocketEvent_input_first _ _ rfl rfl]
  have h22 : (onSocketEvent (onSocketEvent clientInit .connection).1
      (.input (.ok m1))).2 = [] := by
    rw [hs1]; exact onSocketEvent_input_first_sigs _ _ rfl rfl hm1
  rw [h21, h22]
  have haccept : (onSocketEvent (⟨true, true, true⟩ : ClientState)
      (.input (.ok (pinResponse 5)))).1 = ⟨true, true, true⟩ := by decide
  have hacc2 : (onSocketEvent (⟨true, true, true⟩ : ClientState)
      (.input (.ok (pinResponse 5)))).2 = [1000] := by decide
  have hrej2 : (onSocketEvent (⟨true, true, true⟩ : ClientState)
      (.input (.ok (pinResponse (-1))))).2 = [-1] := by decide
  have hcAuth : classifySignal 1000 = .authorized := by decide
  have hcRej : classifySignal (-1) = .rejected := by decide
  refine ⟨rfl, by decide, by rw [haccept], by rw [haccept], ?_, by decide,
    ?_, ?_, ?_⟩
  · intro v
    rw [haccept]
    simp [onSocketEvent, handleIncomingData, SENSOR_DATA, PIN_RESPONSE,
      ERROR_STATE]
  · intro v
    simp [hrej2, hcRej]
  · simp [hacc2, onSensorUpdate, hcAuth, sensorInit]
  · simp [hrej2, onSensorUpdate, hcRej]

/-- Witness for C5-amended: with a `Connect` message completing the
handshake, the pin request right after it is allowed. -/
theorem c5_authorization_outcomes_witness :
    sendPinRequest (onSocketEvent (onSocketEvent clientInit .connection).1
      (.input (.ok ⟨CONNECT, [], 0, []⟩))).1 = .sent :=
  (c5_authorization_outcomes ⟨CONNECT, [], 0, []⟩ [53]
    (by intro h; simp [CONNECT, ERROR_STATE] at h)).1

/-- C7. Requesting a connection for a pin already present in the sensor
list yields `AlreadyExists` ("Sensor already connected") and changes
nothing — no second entry is created; and once the sole connection's
transport reports closed (clearing its `m_connected` flag), pruning dead
clients leaves the client list empty and `isServerConnected()` false. -/
theorem c7_registry_unique_and_prune (fs : FrameState) (pin : List Nat)
    (cOk pOk : Bool) (c : ClientState)
    (hpresent : fs.sensors.any (fun s => s.pin = pin) = true)
    (hne : pin ≠ []) :
    onConnect fs pin cOk pOk = (fs, .alreadyExists) ∧
    checkServerConnection ⟨fs.sensors, [(onSocketEvent c .lost).1]⟩ =
      ⟨fs.sensors, []⟩ ∧
    isServerConnected (checkServerConnection
      ⟨fs.sensors, [(onSocketEvent c .lost).1]⟩) = false := by
  refine ⟨?_, ?_, ?_⟩
  · simp [onConnect, hpresent, hne]
  · simp [checkServerConnection, onSocketEvent]
  · simp [checkServerConnection, isServerConnected, onSocketEvent]

/-- Witness for C7 on a one-sensor registry with a duplicate pin. -/
theorem c7_registry_unique_and_prune_witness :
    onConnect ⟨[⟨[49], true, 0, []⟩], []⟩ [49] true true =
      (⟨[⟨[49], true, 0, []⟩], []⟩, .alreadyExists) :=
  (c7_registry_unique_and_prune ⟨[⟨[49], true, 0, []⟩], []⟩ [49] true true
    ⟨true, true, true⟩ (by decide) (by decide)).1

/-- The history component of a `Sensor::updateValue` fold, generalized over
the starting history: folding the arriving values keeps exactly the last
`MAX_HISTORY` elements of initial-history-then-arrivals. -/
lemma foldl_updateValue_history (vs : List ℚ) (s : Sensor)
    (hs : s.history.length ≤ MAX_HISTORY) :
    (vs.foldl Sensor.updateValue s).history =
      (s.history ++ vs).drop (s.history.length + vs.length - MAX_HISTORY) := by
  induction vs generalizing s with
  | nil =>
    simp
    rw [Nat.sub_eq_zero_of_le hs, List.drop_zero]
  | cons v vs ih =>
    simp only [List.foldl_cons]
    by_cases hfull : MAX_HISTORY ≤ s.history.length
    · have hlen : s.history.length = MAX_HISTORY := le_antisymm hs hfull
      have hne : s.history ≠ [] := by
        intro h
        rw [h] at hlen
        simp [MAX_HISTORY] at hlen
      obtain ⟨a, t, hht⟩ := List.exists_cons_of_ne_nil hne
      have hlen1 : t.length + 1 = MAX_HISTORY := by
        rw [hht] at hlen
        simpa using hlen
      have hupd : (s.updateValue v).history = t ++ [v] := by
        show (if MAX_HISTORY ≤ s.history.length then s.history.tail
          else s.history) ++ [v] = t ++ [v]
        rw [if_pos hfull, hht]
        rfl
      rw [ih (s.updateValue v)
          (by
            rw [hupd]
            simp only [List.length_append, List.length_cons, List.length_nil]
            omega),
        hupd, hht]
      have h1 : (t ++ [v]).length + vs.length - MAX_HISTORY = vs.length := by
        simp only [List.length_append, List.length_cons, List.length_nil]
        omega
      have h2 : (a :: t).length + (v :: vs).length - MAX_HISTORY =
          vs.length + 1 := by
        simp only [List.length_cons]
        omega
      rw [h1, h2]
      have h3 : (t ++ [v]) ++ vs = t ++ v :: vs := by
        simp
      rw [h3]
      rfl
    · push_neg at hfull
      have hupd : (s.updateValue v).history = s.history ++ [v] := by
        simp [Sensor.updateValue, if_neg (not_le.mpr hfull)]
      rw [ih (s.updateValue v) (by rw [hupd]; simp; omega), hupd]
      have h3 : (s.history ++ [v]) ++ vs = s.history ++ v :: vs := by
        simp
      rw [h3]
      congr 1
      simp
      omega

/-- C8. For every sequence of `updateValue` calls on a fresh sensor, the
resulting history is exactly the last `MAX_HISTORY` (100) arrivals in
arrival order — `vs.drop (vs.length − 100)` — so it never holds more than
100 readings, readings appear in arrival order, and once the bound is
reached each new reading evicts exactly the oldest one. -/
theorem c8_history_ring_buffer (p : List Nat) (vs : List ℚ) :
    (vs.foldl Sensor.updateValue (sensorInit p)).history =
      vs.drop (vs.length - MAX_HISTORY) ∧
    (vs.foldl Sensor.updateValue (sensorInit p)).history.length ≤
      MAX_HISTORY := by
  have h := foldl_updateValue_history vs (sensorInit p) (by simp [sensorInit])
  rw [show (sensorInit p).history = [] from rfl] at h
  simp only [List.nil_append, List.length_nil, Nat.zero_add] at h
  refine ⟨h, ?_⟩
  rw [h]
  simp [List.length_drop]
  omega

end Caprev
